import Mathlib

/-!
Verification of the template-synchronization subsystem of the
`template-sync-interview` repository.

The embedding follows the TypeScript sources:
* `src/test-utils.ts` — `MockDatabase` (`get`/`set`/`update`) and the mock
  Supabase client that turns chained `update/eq/select` calls into a
  conditional write (`createMockSupabase`);
* `SOLUTION_SIMPLIFIED.ts` — `TemplateService.updateTemplate` (optimistic
  locking with a retry loop bounded by `MAX_RETRIES = 2`),
  `TemplateService.getTemplate` (read-through cache) and the cache
  invalidation on successful updates;
* `src/problem.tsx` — the background job
  `TemplateFieldProcessor.processTemplateFields`;
* `src/types.ts` — the `Template` / `TemplateUpdate` shapes.

Timestamps are modelled as natural numbers (a logical clock standing for
`Date.now()` / ISO strings), version tokens as the strings the code stores.
-/

namespace TemplateSync

/-! ## JavaScript numeric strings

`SOLUTION_SIMPLIFIED.ts` computes `String(Number(current.version || '0') + 1)`.
`jsNumber` models `Number(s)` on the version strings occurring in this system:
a string of decimal digits parses to its value, the empty string parses to `0`,
and anything else (for example `"1.0.0"` or `"NaN"`) is `NaN`, modelled as
`none`.  `jsString` models `String(n)` for a natural number `n`. -/

def charToDigit (c : Char) : Option Nat :=
  if c.isDigit then some (c.toNat - 48) else none

def parseDigits : List Char → Option (List Nat)
  | [] => some []
  | c :: cs =>
    match charToDigit c, parseDigits cs with
    | some d, some ds => some (d :: ds)
    | _, _ => none

def jsNumber (s : String) : Option Nat :=
  if s.data = [] then some 0
  else
    match parseDigits s.data with
    | some ds => some (ds.foldl (fun a d => a * 10 + d) 0)
    | none => none

/-- Little-endian decimal digits of `n`, with explicit fuel (`fuel ≥ n` is
enough for the value to be complete). -/
def digitsLE : Nat → Nat → List Nat
  | 0, _ => []
  | _ + 1, 0 => []
  | fuel + 1, n + 1 => (n + 1) % 10 :: digitsLE fuel ((n + 1) / 10)

def jsString (n : Nat) : String :=
  if n = 0 then "0" else ⟨(digitsLE n n).reverse.map Nat.digitChar⟩

/-- `String(Number(v || '0') + 1)` from `SOLUTION_SIMPLIFIED.ts` line 51. -/
def newVersionOf (v : String) : String :=
  match jsNumber (if v = "" then "0" else v) with
  | some n => jsString (n + 1)
  | none => "NaN"

/-! ### Round-trip facts about the numeric-string model -/

theorem charToDigit_digitChar {d : Nat} (h : d < 10) :
    charToDigit (Nat.digitChar d) = some d := by
  interval_cases d <;> decide

theorem digitsLE_lt (fuel n : Nat) : ∀ d ∈ digitsLE fuel n, d < 10 := by
  induction fuel generalizing n with
  | zero => intro d hd; simp [digitsLE] at hd
  | succ fuel ih =>
    intro d hd
    match n with
    | 0 => simp [digitsLE] at hd
    | n + 1 =>
      simp only [digitsLE, List.mem_cons] at hd
      rcases hd with h | h
      · subst h; exact Nat.mod_lt _ (by omega)
      · exact ih _ _ h

def valLE (ds : List Nat) : Nat := ds.foldr (fun d acc => d + 10 * acc) 0

theorem valLE_digitsLE (fuel n : Nat) (h : n ≤ fuel) : valLE (digitsLE fuel n) = n := by
  induction fuel generalizing n with
  | zero => interval_cases n; simp [digitsLE, valLE]
  | succ fuel ih =>
    match n with
    | 0 => simp [digitsLE, valLE]
    | n + 1 =>
      have hlt : (n + 1) / 10 < n + 1 := Nat.div_lt_self (Nat.succ_pos n) (by omega)
      have hdiv : (n + 1) / 10 ≤ fuel := by omega
      simp only [digitsLE, valLE, List.foldr_cons]
      have := ih ((n + 1) / 10) hdiv
      simp only [valLE] at this
      rw [this]
      omega

theorem parseDigits_map_digitChar (ds : List Nat) (h : ∀ d ∈ ds, d < 10) :
    parseDigits (ds.map Nat.digitChar) = some ds := by
  induction ds with
  | nil => rfl
  | cons d ds ih =>
    simp only [List.map_cons, parseDigits]
    rw [charToDigit_digitChar (h d (List.mem_cons_self d ds)),
      ih fun x hx => h x (List.mem_cons_of_mem d hx)]

theorem foldl_reverse_valLE (ds : List Nat) :
    ds.reverse.foldl (fun a d => a * 10 + d) 0 = valLE ds := by
  rw [List.foldl_reverse]
  induction ds with
  | nil => rfl
  | cons d ds ih => simp only [valLE, List.foldr_cons] at *; rw [ih]; omega

theorem jsNumber_jsString (n : Nat) : jsNumber (jsString n) = some n := by
  match n with
  | 0 => decide
  | n + 1 =>
    have hne : ((digitsLE (n + 1) (n + 1)).reverse.map Nat.digitChar : List Char) ≠ [] := by
      simp [digitsLE]
    have hlt : ∀ d ∈ (digitsLE (n + 1) (n + 1)).reverse, d < 10 :=
      fun d hd => digitsLE_lt _ _ d (List.mem_reverse.mp hd)
    have hparse := parseDigits_map_digitChar _ hlt
    simp only [jsString, if_neg (Nat.succ_ne_zero n), jsNumber, String.data]
    rw [if_neg hne, hparse]
    show some ((digitsLE (n + 1) (n + 1)).reverse.foldl (fun a d => a * 10 + d) 0) =
      some (n + 1)
    rw [foldl_reverse_valLE (digitsLE (n + 1) (n + 1)),
      valLE_digitsLE _ _ (Nat.le_refl _)]

theorem jsNumber_eq_zero_of_empty : jsNumber "" = some 0 := by decide

/-- When the observed version parses as a number `m`, the freshly committed
version is the decimal string for `m + 1`. -/
theorem newVersionOf_numeric {v : String} {m : Nat} (h : jsNumber v = some m) :
    newVersionOf v = jsString (m + 1) := by
  by_cases hv : v = ""
  · subst hv
    have : m = 0 := by
      have := jsNumber_eq_zero_of_empty
      rw [this] at h
      exact (Option.some_injective _ h.symm)
    subst this
    rfl
  · simp only [newVersionOf, if_neg hv, h]

/-- A numeric version is never committed back unchanged: the successor string
differs from the observed version. -/
theorem newVersionOf_numeric_ne {v : String} {m : Nat} (h : jsNumber v = some m) :
    newVersionOf v ≠ v := by
  intro heq
  have h1 : jsNumber (newVersionOf v) = some (m + 1) := by
    rw [newVersionOf_numeric h]; exact jsNumber_jsString (m + 1)
  rw [heq, h] at h1
  have h2 := Option.some_injective _ h1
  omega

/-! ## Data model (src/types.ts)

`FieldDefinition` keeps the fields the background job touches (`processed`,
`processedAt` are the derived marks added by `performComplexProcessing`).
`Record` is the stored `Template` row of the `template_library` table;
timestamps are logical clock values. -/

structure FieldDef where
  ftype : String
  label : String
  required : Bool
  processed : Option Bool := none
  processedAt : Option Nat := none
deriving DecidableEq

structure Record where
  id : String
  name : String
  description : String := ""
  sections : List String := []
  field_definitions : List (String × FieldDef) := []
  version : String
  updated_at : Nat := 0
  last_user_update : Option Nat := none
  processed_at : Option Nat := none
  update_count : Option Nat := none
deriving DecidableEq

/-- A JavaScript update object: the keys that may appear in `{...updates}`
maps sent to the store.  `none` models an absent key, `some v` a present key;
`applyPatch` is the object spread `{ ...existing, ...updates }`. -/
structure Patch where
  name : Option String := none
  description : Option String := none
  sections : Option (List String) := none
  field_definitions : Option (List (String × FieldDef)) := none
  version : Option String := none
  updated_at : Option Nat := none
  last_user_update : Option Nat := none
  processed_at : Option Nat := none
  update_count : Option Nat := none
deriving DecidableEq

/-- A present patch key overrides the stored value; an absent key keeps it. -/
def overrideOpt {α : Type} (pv : Option α) (rv : Option α) : Option α :=
  match pv with
  | some v => some v
  | none => rv

def applyPatch (r : Record) (p : Patch) : Record :=
  { r with
    name := p.name.getD r.name
    description := p.description.getD r.description
    sections := p.sections.getD r.sections
    field_definitions := p.field_definitions.getD r.field_definitions
    version := p.version.getD r.version
    updated_at := p.updated_at.getD r.updated_at
    last_user_update := overrideOpt p.last_user_update r.last_user_update
    processed_at := overrideOpt p.processed_at r.processed_at
    update_count := overrideOpt p.update_count r.update_count }

/-! ## JavaScript `Map` operations

Both `MockDatabase.storage` (src/test-utils.ts) and `TemplateService.cache`
(`SOLUTION_SIMPLIFIED.ts`) are JavaScript `Map`s keyed by the template id,
modelled as association lists. -/

def mapGet : List (String × Record) → String → Option Record
  | [], _ => none
  | (k, v) :: t, i => if k = i then some v else mapGet t i

def mapSet : List (String × Record) → String → Record → List (String × Record)
  | [], i, r => [(i, r)]
  | (k, v) :: t, i, r => if k = i then (i, r) :: t else (k, v) :: mapSet t i r

def mapDelete : List (String × Record) → String → List (String × Record)
  | [], _ => []
  | (k, v) :: t, i => if k = i then mapDelete t i else (k, v) :: mapDelete t i

theorem mapGet_mapSet_self (m : List (String × Record)) (i : String) (r : Record) :
    mapGet (mapSet m i r) i = some r := by
  induction m with
  | nil => simp [mapGet, mapSet]
  | cons kv t ih =>
    by_cases h : kv.1 = i
    · simp [mapGet, mapSet, h]
    · simp [mapGet, mapSet, h, ih]

theorem mapGet_mapSet_ne (m : List (String × Record)) {i j : String} (r : Record)
    (h : j ≠ i) : mapGet (mapSet m i r) j = mapGet m j := by
  have hij : i ≠ j := Ne.symm h
  induction m with
  | nil => simp [mapGet, mapSet, hij]
  | cons kv t ih =>
    rcases kv with ⟨k, v⟩
    by_cases hk : k = i
    · subst hk
      simp [mapGet, mapSet, hij]
    · by_cases hj : k = j
      · subst hj
        simp [mapGet, mapSet, hk]
      · simp [mapGet, mapSet, hk, hj, ih]

theorem mapGet_mapDelete_self (m : List (String × Record)) (i : String) :
    mapGet (mapDelete m i) i = none := by
  induction m with
  | nil => simp [mapGet, mapDelete]
  | cons kv t ih =>
    by_cases h : kv.1 = i <;> simp [mapGet, mapDelete, h, ih]

theorem mapGet_mapDelete_ne (m : List (String × Record)) {i j : String} (h : j ≠ i) :
    mapGet (mapDelete m i) j = mapGet m j := by
  have hij : i ≠ j := Ne.symm h
  induction m with
  | nil => simp [mapDelete]
  | cons kv t ih =>
    rcases kv with ⟨k, v⟩
    by_cases hk : k = i
    · subst hk
      simp [mapGet, mapDelete, hij, ih]
    · by_cases hj : k = j
      · subst hj
        simp [mapGet, mapDelete, hk]
      · simp [mapGet, mapDelete, hk, hj, ih]

/-! ## MockDatabase (src/test-utils.ts)

`update(id, updates, whereConditions)`: fail when the id has no stored row;
fail when a *truthy* `whereConditions.version` differs from the stored
version (JavaScript `if (whereConditions?.version && existing.version !==
whereConditions.version)` — an absent or empty-string condition skips the
check); otherwise merge `{ ...existing, ...updates }` back into storage. -/

def Storage := List (String × Record)

namespace MockDatabase

def get (db : Storage) (i : String) : Option Record := mapGet db i

def set (db : Storage) (i : String) (r : Record) : Storage := mapSet db i r

def versionMismatch (existing : Record) : Option String → Bool
  | none => false
  | some v => v ≠ "" && existing.version ≠ v

def update (db : Storage) (i : String) (p : Patch) (wv : Option String) :
    Storage × Bool :=
  match get db i with
  | none => (db, false)
  | some existing =>
    if versionMismatch existing wv then (db, false)
    else (set db i (applyPatch existing p), true)

end MockDatabase

/-! ## The store interface seen by `TemplateService.updateTemplate`

`SOLUTION_SIMPLIFIED.ts` talks to the store through two round trips per
attempt: a `select('*').eq('id', ...).single()` fetch and an
`update({...}).eq('id', ...).eq('version', ...)` conditional write.  `Store σ`
abstracts the responses (with store-side state `σ`) so that the retry loop can
be analysed both against the mock client and against adversarial stores such
as one that always reports a version conflict.  An error response models a
rejected promise / non-null `error` field; its `code` is the PostgREST error
code the service inspects (`'PGRST116'` for "no rows updated"). -/

structure StoreErr where
  code : Option String
deriving DecidableEq

structure Store (σ : Type) where
  fetch : σ → String → Except StoreErr Record × σ
  condWrite : σ → String → Patch → String → Except StoreErr (Option Record) × σ

/-- The service cache: a `Map<string, any>` of raw records. -/
def Cache := List (String × Record)

def cacheGet (c : Cache) (i : String) : Option Record := mapGet c i

def cacheSet (c : Cache) (i : String) (r : Record) : Cache := mapSet c i r

def cacheDelete (c : Cache) (i : String) : Cache := mapDelete c i

/-- `private readonly MAX_RETRIES = 2` (SOLUTION_SIMPLIFIED.ts line 26). -/
def MAX_RETRIES : Nat := 2

structure UpdResult where
  success : Bool
  data : Option Record
deriving DecidableEq

/-- Instrumentation of one `updateTemplate` call: number of fetches, number of
conditional writes, and the backoff delays passed to `sleep`, in order. -/
structure Trace where
  reads : Nat
  writes : Nat
  sleeps : List Nat
deriving DecidableEq

/-- The write payload `{ ...updates, version: newVersion, updated_at: new
Date().toISOString() }` (SOLUTION_SIMPLIFIED.ts lines 55-59).  The caller's
`updates` is a `Partial<TemplateUpdate>`; spread order means `version` and
`updated_at` always come from the service. -/
structure ServicePatch where
  name : Option String := none
  description : Option String := none
  sections : Option (List String) := none
  field_definitions : Option (List (String × FieldDef)) := none
  update_count : Option Nat := none
deriving DecidableEq

def ServicePatch.toPatch (p : ServicePatch) (newVersion : String) (now : Nat) : Patch :=
  { name := p.name
    description := p.description
    sections := p.sections
    field_definitions := p.field_definitions
    update_count := p.update_count
    version := some newVersion
    updated_at := some now }

/-- The body of the `while (attempts < this.MAX_RETRIES)` loop of
`TemplateService.updateTemplate` (SOLUTION_SIMPLIFIED.ts lines 35-89).
`attempts` is the loop counter; `remaining = MAX_RETRIES - attempts` drives
the recursion (the loop guard `attempts < MAX_RETRIES` is `remaining > 0`).
Each iteration: fetch; on fetch error throw into the catch block (return
failure when `attempts >= MAX_RETRIES`, else loop); otherwise conditional
write with the observed version; `PGRST116` with attempts left sleeps
`100 * attempts` and retries; any other error throws into the catch block;
a committed write deletes the cache entry and returns success. -/
def updateLoop {σ : Type} (store : Store σ) (i : String) (p : ServicePatch)
    (now : Nat) :
    Nat → Nat → σ → Cache → Trace → σ × Cache × UpdResult × Trace
  | _, 0, s, cache, tr => (s, cache, ⟨false, none⟩, tr)
  | attempts, remaining + 1, s, cache, tr =>
    let attempts := attempts + 1
    match store.fetch s i with
    | (.error _, s) =>
      let tr := { tr with reads := tr.reads + 1 }
      if MAX_RETRIES ≤ attempts then (s, cache, ⟨false, none⟩, tr)
      else updateLoop store i p now attempts remaining s cache tr
    | (.ok current, s) =>
      let tr := { tr with reads := tr.reads + 1 }
      let newVersion := newVersionOf current.version
      match store.condWrite s i (p.toPatch newVersion now) current.version with
      | (.error e, s) =>
        let tr := { tr with writes := tr.writes + 1 }
        if e.code = some "PGRST116" ∧ attempts < MAX_RETRIES then
          updateLoop store i p now attempts remaining s cache
            { tr with sleeps := tr.sleeps ++ [100 * attempts] }
        else if MAX_RETRIES ≤ attempts then (s, cache, ⟨false, none⟩, tr)
        else updateLoop store i p now attempts remaining s cache tr
      | (.ok updated, s) =>
        let tr := { tr with writes := tr.writes + 1 }
        (s, cacheDelete cache i, ⟨true, updated⟩, tr)

/-- `TemplateService.updateTemplate` (SOLUTION_SIMPLIFIED.ts lines 31-90). -/
def updateTemplate {σ : Type} (store : Store σ) (s : σ) (cache : Cache)
    (i : String) (p : ServicePatch) (now : Nat) : σ × Cache × UpdResult × Trace :=
  updateLoop store i p now 0 MAX_RETRIES s cache ⟨0, 0, []⟩

/-! ## The mock Supabase client over `MockDatabase` (src/test-utils.ts)

`createMockSupabase` resolves a select chain with `db.get(id)` (error "Not
found", without a code, when absent) and an update chain with
`db.update(id, values, whereConditions)` — on success the returned data is
`db.get(id)` after the merge, on failure the error is
`{ code: 'PGRST116', message: 'No rows updated' }`. -/

def mockStore : Store Storage where
  fetch := fun db i =>
    match MockDatabase.get db i with
    | some r => (.ok r, db)
    | none => (.error ⟨none⟩, db)
  condWrite := fun db i p expected =>
    match MockDatabase.update db i p (some expected) with
    | (db', true) => (.ok (MockDatabase.get db' i), db')
    | (db', false) => (.error ⟨some "PGRST116"⟩, db')

/-- `TemplateService.updateTemplate` running against the mock client. -/
def svcUpdate (db : Storage) (cache : Cache) (i : String) (p : ServicePatch)
    (now : Nat) : Storage × Cache × UpdResult × Trace :=
  updateTemplate mockStore db cache i p now

/-- `TemplateService.getTemplate` (SOLUTION_SIMPLIFIED.ts lines 95-115):
cache hit returns the cached record; otherwise fetch from the store (`null`
on error, leaving the cache alone) and populate the cache. -/
def getTemplate (db : Storage) (cache : Cache) (i : String) :
    Cache × Option Record :=
  match cacheGet cache i with
  | some r => (cache, some r)
  | none =>
    match MockDatabase.get db i with
    | none => (cache, none)
    | some r => (cacheSet cache i r, some r)

/-! ## Adversarial store behaviours

Used to analyse the retry loop in isolation, as in the spec's testable
properties ("given a store that always returns `VersionConflict` ...").
The store state counts the calls made so far. -/

/-- A store whose fetches succeed (returning `f k` on the `k`-th call) and
whose conditional writes always report a version conflict (`PGRST116`). -/
def conflictStore (f : Nat → Record) : Store Nat where
  fetch := fun s _ => (.ok (f s), s + 1)
  condWrite := fun s _ _ _ => (.error ⟨some "PGRST116"⟩, s + 1)

/-- A store whose fetches succeed and whose conditional writes always fail
with a fixed error `e` (for example a fatal `StoreError`). -/
def errWriteStore (f : Nat → Record) (e : StoreErr) : Store Nat where
  fetch := fun s _ => (.ok (f s), s + 1)
  condWrite := fun s _ _ _ => (.error e, s + 1)

/-- A store whose fetches always fail with a fixed error `e` (for example
`NotFound`); its conditional write is never reachable from the service. -/
def fetchErrStore (e : StoreErr) : Store Nat where
  fetch := fun s _ => (.error e, s + 1)
  condWrite := fun s _ _ _ => (.error e, s + 1)

/-! ## Background processing

`TemplateFieldProcessor` (src/problem.tsx lines 110-152): fetch the record,
mark every field definition `processed: true, processedAt: now`
(`performComplexProcessing`), then write `{ field_definitions, processed_at }`
filtered only by `.eq('id', ...)` — no version condition and no cooldown
check.  The returned `Nat` counts store writes performed. -/

def performComplexProcessing (fds : List (String × FieldDef)) (now : Nat) :
    List (String × FieldDef) :=
  fds.map fun kv => (kv.1, { kv.2 with processed := some true, processedAt := some now })

def processTemplateFields (db : Storage) (i : String) (now : Nat) : Storage × Nat :=
  match MockDatabase.get db i with
  | none => (db, 0)
  | some t =>
    let processed := performComplexProcessing t.field_definitions now
    ((MockDatabase.update db i
        { field_definitions := some processed, processed_at := some now } none).1, 1)

inductive ProcOutcome where
  | processed
  | skipped (reason : String)
  | failed
deriving DecidableEq

/-- Modelled from the spec: the repository's *fixed* background processor is
not among the source files under src/ — src/ holds only the deliberately
broken `TemplateFieldProcessor.processTemplateFields` stub (documented there
as "PROBLEM: This method can overwrite recent user changes"), together with
its tests and demo callers, which expect a `"Skipped - recent user update"`
outcome.  Following §4.4 of the spec: read the record; if
`now - last_user_update < cooldownMs` (default 5000 ms) return
`Skipped("recent user update")` without writing; otherwise compute the
derived fields and issue a `conditionalWrite` with the record's current
version, returning `Skipped("conflict")` on a conflict rather than forcing
an overwrite.  A missing `last_user_update` (JavaScript `undefined`, whose
age comparison is false) proceeds to the write.  The returned `Nat` counts
store writes performed. -/
def cooldownMs : Nat := 5000

def processRecord (db : Storage) (i : String) (now : Nat) :
    Storage × ProcOutcome × Nat :=
  match MockDatabase.get db i with
  | none => (db, .failed, 0)
  | some r =>
    let recent : Bool :=
      match r.last_user_update with
      | some lastUpd => now - lastUpd < cooldownMs
      | none => false
    if recent then (db, .skipped "recent user update", 0)
    else
      let processed := performComplexProcessing r.field_definitions now
      match MockDatabase.update db i
          { field_definitions := some processed, processed_at := some now }
          (some r.version) with
      | (db', true) => (db', .processed, 1)
      | (db', false) => (db', .skipped "conflict", 1)

/-! ## Sequential traces of service operations

For the cache-coherence claim the service is exercised by an arbitrary
sequence of `getTemplate` / `updateTemplate` calls against one shared
database and one shared cache; the logical clock ticks between steps. -/

structure World where
  db : Storage
  cache : Cache
  now : Nat

inductive Op where
  | get (i : String)
  | upd (i : String) (p : ServicePatch)

def stepOp (w : World) : Op → World
  | .get i =>
    let (cache', _) := getTemplate w.db w.cache i
    ⟨w.db, cache', w.now + 1⟩
  | .upd i p =>
    let (db', cache', _, _) := svcUpdate w.db w.cache i p w.now
    ⟨db', cache', w.now + 1⟩

def execOps (w : World) (ops : List Op) : World := ops.foldl stepOp w

/-! ## How one `updateTemplate` call behaves against the mock store

Sequentially (no interleaved writer between the fetch and the conditional
write) the observed version always matches, so a present record commits on
the first attempt and an absent record exhausts both attempts. -/

theorem applyPatch_version (r : Record) (p : ServicePatch) (v : String) (now : Nat) :
    (applyPatch r (p.toPatch v now)).version = v := rfl

theorem applyPatch_updated_at (r : Record) (p : ServicePatch) (v : String) (now : Nat) :
    (applyPatch r (p.toPatch v now)).updated_at = now := rfl

theorem applyPatch_last_user_update (r : Record) (p : ServicePatch) (v : String)
    (now : Nat) : (applyPatch r (p.toPatch v now)).last_user_update = r.last_user_update :=
  rfl

theorem svcUpdate_found {db : Storage} {i : String} {r : Record} (cache : Cache)
    (p : ServicePatch) (now : Nat) (h : MockDatabase.get db i = some r) :
    svcUpdate db cache i p now =
      (MockDatabase.set db i (applyPatch r (p.toPatch (newVersionOf r.version) now)),
       cacheDelete cache i,
       ⟨true, some (applyPatch r (p.toPatch (newVersionOf r.version) now))⟩,
       ⟨1, 1, []⟩) := by
  have h' : mapGet db i = some r := h
  simp [svcUpdate, updateTemplate, MAX_RETRIES, updateLoop, mockStore, h',
    MockDatabase.update, MockDatabase.versionMismatch, MockDatabase.set,
    MockDatabase.get, mapGet_mapSet_self]

theorem svcUpdate_notfound {db : Storage} {i : String} (cache : Cache)
    (p : ServicePatch) (now : Nat) (h : MockDatabase.get db i = none) :
    svcUpdate db cache i p now = (db, cache, ⟨false, none⟩, ⟨2, 0, []⟩) := by
  simp only [svcUpdate, updateTemplate, MAX_RETRIES, updateLoop, mockStore, h]
  norm_num

theorem svcUpdate_db_other {db : Storage} {cache : Cache} {i j : String}
    (p : ServicePatch) (now : Nat) (h : j ≠ i) :
    MockDatabase.get (svcUpdate db cache i p now).1 j = MockDatabase.get db j := by
  cases hdb : MockDatabase.get db i with
  | none => rw [svcUpdate_notfound cache p now hdb]
  | some r =>
    rw [svcUpdate_found cache p now hdb]
    exact mapGet_mapSet_ne db _ h

theorem svcUpdate_cache_other {db : Storage} {cache : Cache} {i j : String}
    (p : ServicePatch) (now : Nat) (h : j ≠ i) :
    cacheGet (svcUpdate db cache i p now).2.1 j = cacheGet cache j := by
  cases hdb : MockDatabase.get db i with
  | none => rw [svcUpdate_notfound cache p now hdb]
  | some r =>
    rw [svcUpdate_found cache p now hdb]
    exact mapGet_mapDelete_ne cache h

/-! ## The cache-coherence invariant

After a successful update committed version `n`, every record the service can
still hand out for that id — whether from the store or from a cache entry
(re)populated later — carries a numeric version at least `n`. -/

def goodVer (n : Nat) (r : Record) : Prop :=
  ∃ m, jsNumber r.version = some m ∧ n ≤ m

def coherent (i : String) (n : Nat) (w : World) : Prop :=
  (∃ r, MockDatabase.get w.db i = some r ∧ goodVer n r) ∧
  (∀ r, cacheGet w.cache i = some r → goodVer n r)

theorem goodVer_applyPatch {n : Nat} {r : Record} (p : ServicePatch) (now : Nat)
    (h : goodVer n r) :
    goodVer (n + 1) (applyPatch r (p.toPatch (newVersionOf r.version) now)) := by
  obtain ⟨m, hm, hnm⟩ := h
  refine ⟨m + 1, ?_, by omega⟩
  rw [applyPatch_version, newVersionOf_numeric hm]
  exact jsNumber_jsString (m + 1)

theorem coherent_stepOp {i : String} {n : Nat} {w : World} (o : Op)
    (h : coherent i n w) : coherent i n (stepOp w o) := by
  obtain ⟨⟨rdb, hdb, hgood⟩, hcache⟩ := h
  cases o with
  | get j =>
    simp only [stepOp, getTemplate]
    refine ⟨⟨rdb, hdb, hgood⟩, ?_⟩
    cases hc : cacheGet w.cache j with
    | some rc => simpa using hcache
    | none =>
      cases hj : MockDatabase.get w.db j with
      | none => simpa using hcache
      | some rj =>
        intro r hr
        by_cases hji : j = i
        · subst hji
          rw [hdb] at hj
          cases hj
          simp only [cacheGet, cacheSet] at hr
          rw [mapGet_mapSet_self] at hr
          cases hr
          exact hgood
        · simp only [cacheGet, cacheSet] at hr
          rw [mapGet_mapSet_ne _ _ (Ne.symm (by simpa using hji))] at hr
          exact hcache r hr
  | upd j p =>
    by_cases hji : j = i
    · subst hji
      simp only [stepOp, svcUpdate_found w.cache p w.now hdb]
      constructor
      · refine ⟨applyPatch rdb (p.toPatch (newVersionOf rdb.version) w.now), ?_, ?_⟩
        · exact mapGet_mapSet_self w.db j _
        · obtain ⟨m, hm, hnm⟩ := goodVer_applyPatch p w.now hgood
          exact ⟨m, hm, by omega⟩
      · intro r hr
        simp only [cacheGet, cacheDelete] at hr
        rw [mapGet_mapDelete_self] at hr
        cases hr
    · simp only [stepOp]
      refine ⟨⟨rdb, ?_, hgood⟩, ?_⟩
      · rw [svcUpdate_db_other p w.now (Ne.symm hji)]
        exact hdb
      · intro r hr
        apply hcache
        rw [← @svcUpdate_cache_other w.db w.cache j i p w.now (Ne.symm hji)]
        exact hr

theorem coherent_execOps {i : String} {n : Nat} {w : World} (ops : List Op)
    (h : coherent i n w) : coherent i n (execOps w ops) := by
  induction ops generalizing w with
  | nil => exact h
  | cons o ops ih => exact ih (coherent_stepOp o h)

theorem getTemplate_coherent {i : String} {n : Nat} {w : World}
    (h : coherent i n w) {r : Record}
    (hr : (getTemplate w.db w.cache i).2 = some r) : goodVer n r := by
  obtain ⟨⟨rdb, hdb, hgood⟩, hcache⟩ := h
  simp only [getTemplate] at hr
  cases hc : cacheGet w.cache i with
  | some rc =>
    rw [hc] at hr
    cases hr
    exact hcache _ hc
  | none =>
    rw [hc, hdb] at hr
    cases hr
    exact hgood

/-! ## Shape of every `updateTemplate` run

Whatever the store does, the loop makes at most two attempts, so it either
returns a success or the literal `{ success: false, data: null }`, and the
only backoff it can perform is the single `sleep(100 * 1)` after a conflict
on the first attempt. -/

theorem updateTemplate_shape {σ : Type} (store : Store σ) (s : σ) (cache : Cache)
    (i : String) (p : ServicePatch) (now : Nat) :
    ((updateTemplate store s cache i p now).2.2.1.success = true ∨
      (updateTemplate store s cache i p now).2.2.1 = ⟨false, none⟩) ∧
    ((updateTemplate store s cache i p now).2.2.2.sleeps = [] ∨
      (updateTemplate store s cache i p now).2.2.2.sleeps = [100]) := by
  simp only [updateTemplate, MAX_RETRIES, updateLoop]
  repeat' split
  all_goals simp_all

/-! ## Sample data for witnesses and counterexamples

`tpl100` mirrors `createTestTemplate` (src/test-utils.ts), whose default
version is the non-numeric string `'1.0.0'`; `tpl1` mirrors the simplified
test fixture whose version is `'1'`. -/

def tpl100 : Record := { id := "test-template-123", name := "Test Template", version := "1.0.0" }

def tpl1 : Record := { id := "template-1", name := "Original Name", version := "1" }

def db100 : Storage := [("test-template-123", tpl100)]

def db1 : Storage := [("template-1", tpl1)]

/-! ## Claim C1 -/

/-- Claim C1, counterexample: the claim states that a write whose expected
version does not match the committed version is always rejected and never
silently applied.  `MockDatabase.update` checks
`whereConditions?.version && existing.version !== whereConditions.version`,
so an *empty-string* expected version is falsy and skips the check entirely:
against a stored version `'1.0.0'` a write carrying expected version `''`
reports success and mutates the record even though `'' ≠ '1.0.0'`.  (This
expected version is produced by in-repo code: `TemplateService.updateTemplate`
in src/services/TemplateService.ts passes `.eq('version', currentVersion ||
'')` on a cache miss.) -/
theorem C1_counterexample_empty_version_bypasses_check :
    (MockDatabase.update db100 "test-template-123" { name := some "hijacked" } (some "")).2
        = true ∧
    ("" : String) ≠ "1.0.0" ∧
    (MockDatabase.get
        (MockDatabase.update db100 "test-template-123" { name := some "hijacked" }
          (some "")).1 "test-template-123").map Record.name = some "hijacked" := by
  decide

/-- Claim C1 (amended): for every conditional write that supplies a
*non-empty* expected version, the write succeeds exactly when the expected
version equals the stored version, and on a mismatch it is rejected as a
conflict with the stored state unchanged; an empty or absent expected version
bypasses the version check (JavaScript truthiness). -/
theorem C1_cas_rejects_nonempty_mismatch {db : Storage} {i : String} {r : Record}
    (p : Patch) {v : String} (hr : MockDatabase.get db i = some r) (hv : v ≠ "") :
    ((MockDatabase.update db i p (some v)).2 = true ↔ r.version = v) ∧
    (r.version ≠ v → MockDatabase.update db i p (some v) = (db, false)) := by
  by_cases hver : r.version = v
  · simp [MockDatabase.update, MockDatabase.versionMismatch, hr, hver]
  · simp [MockDatabase.update, MockDatabase.versionMismatch, hr, hver, hv]

theorem C1_witness :
    ((MockDatabase.update db100 "test-template-123" { name := some "w" } (some "7")).2
        = true ↔ tpl100.version = "7") ∧
    (tpl100.version ≠ "7" →
      MockDatabase.update db100 "test-template-123" { name := some "w" } (some "7")
        = (db100, false)) :=
  C1_cas_rejects_nonempty_mismatch { name := some "w" } (by decide) (by decide)

/-! ## Claim C2 -/

/-- Claim C2: whenever `updateTemplate` returns `success: true` for an id, the
cache entry for that id has already been deleted when the result is returned,
and any later `getTemplate` for that id — after an arbitrary further sequence
of service operations on the shared database and cache — returns a record
whose numeric version is at least the version committed by that update (so no
stale cached snapshot is ever served after a successful update). -/
theorem C2_cache_coherence {db : Storage} {cache : Cache} {i : String}
    (p : ServicePatch) (now : Nat) {r0 : Record} {n : Nat}
    (hdb : MockDatabase.get db i = some r0)
    (hver : jsNumber r0.version = some n) :
    (svcUpdate db cache i p now).2.2.1.success = true ∧
    cacheGet (svcUpdate db cache i p now).2.1 i = none ∧
    ∀ ops : List Op, ∀ r : Record,
      (getTemplate
          (execOps ⟨(svcUpdate db cache i p now).1,
            (svcUpdate db cache i p now).2.1, now + 1⟩ ops).db
          (execOps ⟨(svcUpdate db cache i p now).1,
            (svcUpdate db cache i p now).2.1, now + 1⟩ ops).cache i).2 = some r →
      ∃ m, jsNumber r.version = some m ∧ n + 1 ≤ m := by
  rw [svcUpdate_found cache p now hdb]
  refine ⟨rfl, mapGet_mapDelete_self cache i, ?_⟩
  intro ops r hr
  have hinv : coherent i (n + 1)
      ⟨MockDatabase.set db i (applyPatch r0 (p.toPatch (newVersionOf r0.version) now)),
        cacheDelete cache i, now + 1⟩ := by
    constructor
    · exact ⟨_, mapGet_mapSet_self db i _,
        goodVer_applyPatch p now ⟨n, hver, Nat.le_refl n⟩⟩
    · intro r' hr'
      rw [show cacheGet (cacheDelete cache i) i = none from
        mapGet_mapDelete_self cache i] at hr'
      cases hr'
  exact getTemplate_coherent (coherent_execOps ops hinv) hr

theorem C2_witness :
    (svcUpdate db1 [] "template-1" { name := some "A" } 5).2.2.1.success = true ∧
    cacheGet (svcUpdate db1 [] "template-1" { name := some "A" } 5).2.1 "template-1"
        = none ∧
    ∀ ops : List Op, ∀ r : Record,
      (getTemplate
          (execOps ⟨(svcUpdate db1 [] "template-1" { name := some "A" } 5).1,
            (svcUpdate db1 [] "template-1" { name := some "A" } 5).2.1, 5 + 1⟩ ops).db
          (execOps ⟨(svcUpdate db1 [] "template-1" { name := some "A" } 5).1,
            (svcUpdate db1 [] "template-1" { name := some "A" } 5).2.1, 5 + 1⟩ ops).cache
          "template-1").2 = some r →
      ∃ m, jsNumber r.version = some m ∧ 1 + 1 ≤ m :=
  @C2_cache_coherence db1 [] "template-1" { name := some "A" } 5 tpl1 1 (by decide)
    (by decide)

/-! ## Claim C3 -/

/-- Claim C3, counterexample: the claim puts the default retry budget at
`maxAttempts = 3`; against a store that always reports a version conflict the
simplified service would then spend three conditional writes before giving
up.  The code's budget is `MAX_RETRIES = 2`: exactly two conditional writes
are issued (never a third), after which it returns
`{ success: false, data: null }`. -/
theorem C3_counterexample_budget_is_two_not_three :
    (updateTemplate (conflictStore fun _ => tpl1) 0 [] "template-1" {} 0).2.2.2.writes
        = 2 ∧
    (updateTemplate (conflictStore fun _ => tpl1) 0 [] "template-1" {} 0).2.2.2.writes
        ≠ 3 ∧
    (updateTemplate (conflictStore fun _ => tpl1) 0 [] "template-1" {} 0).2.2.1
        = ⟨false, none⟩ := by
  decide

/-- Claim C3 (amended): given a store whose conditional write always reports
a version conflict, `updateTemplate` issues exactly `MAX_RETRIES = 2`
conditional-write calls and then terminates with
`{ success: false, data: null }`; it never retries beyond that bound. -/
theorem C3_bounded_retry (f : Nat → Record) (s0 : Nat) (cache : Cache) (i : String)
    (p : ServicePatch) (now : Nat) :
    (updateTemplate (conflictStore f) s0 cache i p now).2.2.2.writes = MAX_RETRIES ∧
    (updateTemplate (conflictStore f) s0 cache i p now).2.2.1 = ⟨false, none⟩ :=
  ⟨rfl, rfl⟩

/-! ## Claim C4 -/

/-- Claim C4: if, when the background processor runs, the record's
`last_user_update` is present and less than `cooldownMs = 5000` ms old, then
`processRecord` performs zero store writes, leaves the database untouched and
reports the skipped outcome.  (Settled against the spec-modelled
`processRecord`; see its doc comment.) -/
theorem C4_background_deference {db : Storage} {i : String} {now lastUpd : Nat}
    {r : Record} (hdb : MockDatabase.get db i = some r)
    (hl : r.last_user_update = some lastUpd) (hage : now - lastUpd < cooldownMs) :
    processRecord db i now = (db, .skipped "recent user update", 0) := by
  simp [processRecord, hdb, hl, hage]

def c4rec : Record :=
  { id := "t1", name := "x", version := "1", last_user_update := some 100 }

def c4db : Storage := [("t1", c4rec)]

theorem C4_witness :
    processRecord c4db "t1" 103 = (c4db, .skipped "recent user update", 0) :=
  @C4_background_deference c4db "t1" 103 100 c4rec (by decide) (by decide) (by decide)

/-! ## Claim C5 -/

/-- Claim C5, counterexample: the claim states that a non-conflict store
error makes the operation terminate after that single failing attempt,
issuing no further read or conditional-write.  Against a store whose
conditional write always fails with the non-conflict code `'500'`, the
service in fact runs its catch block and loops: two reads and two
conditional writes are issued, not one of each. -/
theorem C5_counterexample_nonconflict_error_is_retried :
    (updateTemplate (errWriteStore (fun _ => tpl1) ⟨some "500"⟩) 0 [] "template-1" {} 0).2.2.2.reads
        = 2 ∧
    (updateTemplate (errWriteStore (fun _ => tpl1) ⟨some "500"⟩) 0 [] "template-1" {} 0).2.2.2.writes
        = 2 ∧
    ¬((updateTemplate (errWriteStore (fun _ => tpl1) ⟨some "500"⟩) 0 [] "template-1" {} 0).2.2.2.reads
          = 1 ∧
      (updateTemplate (errWriteStore (fun _ => tpl1) ⟨some "500"⟩) 0 [] "template-1" {} 0).2.2.2.writes
          = 1) := by
  decide

/-- Claim C5 (amended): a store error that is not a version conflict does not
fail fast: the catch block swallows it and the loop retries (with no backoff
sleep) until the `MAX_RETRIES` attempts are spent, after which
`updateTemplate` returns `{ success: false, data: null }` instead of
propagating the error. -/
theorem C5_nonconflict_error_retries_without_backoff (f : Nat → Record) (e : StoreErr)
    (h : e.code ≠ some "PGRST116") (s0 : Nat) (cache : Cache) (i : String)
    (p : ServicePatch) (now : Nat) :
    (updateTemplate (errWriteStore f e) s0 cache i p now).2.2.2 = ⟨2, 2, []⟩ ∧
    (updateTemplate (errWriteStore f e) s0 cache i p now).2.2.1 = ⟨false, none⟩ := by
  constructor <;>
    simp [updateTemplate, updateLoop, MAX_RETRIES, errWriteStore, h]

theorem C5_witness :
    (updateTemplate (errWriteStore (fun _ => tpl1) ⟨none⟩) 0 [] "template-1" {} 0).2.2.2
        = ⟨2, 2, []⟩ ∧
    (updateTemplate (errWriteStore (fun _ => tpl1) ⟨none⟩) 0 [] "template-1" {} 0).2.2.1
        = ⟨false, none⟩ :=
  C5_nonconflict_error_retries_without_backoff (fun _ => tpl1) ⟨none⟩ (by decide) 0 []
    "template-1" {} 0

/-! ## Claim C6 -/

/-- Claim C6: on every execution of `updateTemplate`, whatever the store
does, the backoff delay waited before retry attempt `k` (recorded as entry
`k - 2` of the sleep trace; a delay is only ever waited after a version
conflict) equals `baseBackoffMs * backoffMultiplier^(k-2) = 100 * 2^(k-2)`
with the defaults, and the waited delays are monotonically non-decreasing.
With `MAX_RETRIES = 2` the only realizable retry is `k = 2`, whose delay
`100 * attempts = 100` coincides with the exponential schedule `100 * 2^0`. -/
theorem C6_backoff_schedule {σ : Type} (store : Store σ) (s : σ) (cache : Cache)
    (i : String) (p : ServicePatch) (now : Nat) :
    (∀ k (hk : k < (updateTemplate store s cache i p now).2.2.2.sleeps.length),
      (updateTemplate store s cache i p now).2.2.2.sleeps.get ⟨k, hk⟩ = 100 * 2 ^ k) ∧
    List.Pairwise (· ≤ ·) (updateTemplate store s cache i p now).2.2.2.sleeps := by
  rcases (updateTemplate_shape store s cache i p now).2 with h | h <;> rw [h]
  · exact ⟨fun k hk => absurd hk (by simp), by simp⟩
  · refine ⟨fun k hk => ?_, by simp⟩
    have hk1 : k < 1 := by simpa using hk
    have hk0 : k = 0 := by omega
    subst hk0
    rfl

theorem C6_witness :
    (updateTemplate (conflictStore fun _ => tpl1) 0 [] "template-1" {} 0).2.2.2.sleeps.get
        ⟨0, by decide⟩ = 100 * 2 ^ 0 :=
  (C6_backoff_schedule (conflictStore fun _ => tpl1) 0 [] "template-1" {} 0).1 0 (by decide)

/-! ## Claim C7 -/

def c7step1 : Storage × Cache × UpdResult × Trace :=
  svcUpdate db100 [] "test-template-123" { name := some "A" } 1

def c7step2 : Storage × Cache × UpdResult × Trace :=
  svcUpdate c7step1.1 c7step1.2.1 "test-template-123" { name := some "B" } 2

/-- Claim C7, counterexample: the claim states that every successful write
commits a version distinct from the one the writer observed and that a
version value is never reused.  Starting from `createTestTemplate`'s own
default version `'1.0.0'` (non-numeric, so `Number('1.0.0')` is `NaN`), the
first successful update commits version `'NaN'`; the second successful update
observes `'NaN'` and commits `'NaN'` again — two successive successful writes
with identical committed versions, the second equal to its observed one. -/
theorem C7_counterexample_nan_version_reused :
    c7step1.2.2.1.success = true ∧
    c7step2.2.2.1.success = true ∧
    (MockDatabase.get c7step1.1 "test-template-123").map Record.version
        = some "NaN" ∧
    (MockDatabase.get c7step2.1 "test-template-123").map Record.version
        = some "NaN" := by
  decide

/-- Claim C7 (amended): whenever the observed version is a decimal-numeral
string (value `n`), a successful `updateTemplate` write commits the decimal
string for `n + 1`, which differs from the observed version and itself parses
to `n + 1` — so along any chain of successful writes with numeric versions the
version strictly increases and is never reused.  When the observed version is
non-numeric the committed version is the constant `'NaN'`, and distinctness
fails once the stored version is already `'NaN'`. -/
theorem C7_version_advances_when_numeric {db : Storage} {cache : Cache}
    {i : String} (p : ServicePatch) (now : Nat) {r : Record} {n : Nat}
    (hdb : MockDatabase.get db i = some r) (hver : jsNumber r.version = some n) :
    (svcUpdate db cache i p now).2.2.1.success = true ∧
    (MockDatabase.get (svcUpdate db cache i p now).1 i).map Record.version
        = some (jsString (n + 1)) ∧
    jsString (n + 1) ≠ r.version ∧
    jsNumber (jsString (n + 1)) = some (n + 1) := by
  rw [svcUpdate_found cache p now hdb]
  refine ⟨rfl, ?_, ?_, jsNumber_jsString (n + 1)⟩
  · simp [MockDatabase.get, MockDatabase.set, mapGet_mapSet_self,
      applyPatch_version, newVersionOf_numeric hver]
  · intro h
    exact newVersionOf_numeric_ne hver (by rw [newVersionOf_numeric hver]; exact h)

theorem C7_witness :
    (svcUpdate db1 [] "template-1" { name := some "A" } 5).2.2.1.success = true ∧
    (MockDatabase.get (svcUpdate db1 [] "template-1" { name := some "A" } 5).1
        "template-1").map Record.version = some (jsString (1 + 1)) ∧
    jsString (1 + 1) ≠ tpl1.version ∧
    jsNumber (jsString (1 + 1)) = some (1 + 1) :=
  @C7_version_advances_when_numeric db1 [] "template-1" { name := some "A" } 5 tpl1 1
    (by decide) (by decide)

/-! ## Claim C8 -/

def c8rec : Record :=
  { id := "t1", name := "x", version := "1", last_user_update := some 7 }

def c8db : Storage := [("t1", c8rec)]

/-- Claim C8, counterexample: the claim states that every successful write
through `updateTemplate` sets `last_user_update` to the current time.  The
write payload is `{ ...updates, version, updated_at }` — it never touches
`last_user_update`: after a successful update at time 42 of a record whose
`last_user_update` is 7, the stored `last_user_update` is still 7, not 42. -/
theorem C8_counterexample_last_user_update_not_set :
    (svcUpdate c8db [] "t1" { name := some "y" } 42).2.2.1.success = true ∧
    (MockDatabase.get (svcUpdate c8db [] "t1" { name := some "y" } 42).1 "t1").map
        Record.last_user_update = some (some 7) ∧
    (some 7 : Option Nat) ≠ some 42 := by
  decide

/-- Claim C8 (amended): every successful write issued through `updateTemplate`
sets `updated_at` (not `last_user_update`) to the current time and leaves
`last_user_update` exactly as it was; and no write issued by the background
processor (`processTemplateFields`, which writes only `field_definitions` and
`processed_at`) ever modifies `last_user_update`. -/
theorem C8_updated_at_set_and_background_frame :
    (∀ (db : Storage) (cache : Cache) (i : String) (p : ServicePatch) (now : Nat)
        (r : Record), MockDatabase.get db i = some r →
      (svcUpdate db cache i p now).2.2.1.success = true ∧
      (MockDatabase.get (svcUpdate db cache i p now).1 i).map Record.updated_at
          = some now ∧
      (MockDatabase.get (svcUpdate db cache i p now).1 i).map Record.last_user_update
          = some r.last_user_update) ∧
    (∀ (db : Storage) (i : String) (now : Nat),
      (MockDatabase.get (processTemplateFields db i now).1 i).map
          Record.last_user_update
        = (MockDatabase.get db i).map Record.last_user_update) := by
  constructor
  · intro db cache i p now r hdb
    rw [svcUpdate_found cache p now hdb]
    refine ⟨rfl, ?_, ?_⟩ <;>
      simp [MockDatabase.get, MockDatabase.set, mapGet_mapSet_self,
        applyPatch_updated_at, applyPatch_last_user_update]
  · intro db i now
    cases hdb : MockDatabase.get db i with
    | none => simp [processTemplateFields, hdb]
    | some t =>
      have hdb' : mapGet db i = some t := hdb
      simp [processTemplateFields, hdb, hdb', MockDatabase.update,
        MockDatabase.versionMismatch, MockDatabase.get, MockDatabase.set,
        mapGet_mapSet_self, applyPatch, overrideOpt]

theorem C8_witness :
    (svcUpdate c8db [] "t1" { name := some "y" } 42).2.2.1.success = true ∧
    (MockDatabase.get (svcUpdate c8db [] "t1" { name := some "y" } 42).1 "t1").map
        Record.updated_at = some 42 ∧
    (MockDatabase.get (svcUpdate c8db [] "t1" { name := some "y" } 42).1 "t1").map
        Record.last_user_update = some c8rec.last_user_update :=
  C8_updated_at_set_and_background_frame.1 c8db [] "t1" { name := some "y" } 42 c8rec
    (by decide)

/-! ## Claim C9 -/

/-- Claim C9: `updateTemplate` is total — for every store behaviour (fetch
errors, write errors, conflicts) it returns an ordinary result object rather
than throwing: either a success, or exactly `{ success: false, data: null }`
once its attempts are spent. -/
theorem C9_total_never_throws {σ : Type} (store : Store σ) (s : σ) (cache : Cache)
    (i : String) (p : ServicePatch) (now : Nat) :
    (updateTemplate store s cache i p now).2.2.1.success = true ∨
    (updateTemplate store s cache i p now).2.2.1 = ⟨false, none⟩ :=
  (updateTemplate_shape store s cache i p now).1

/-! ## Claim C10 -/

/-- Claim C10: `MockDatabase.update` is atomic with respect to failure —
whenever it returns `false` the storage is completely unchanged, and whenever
it returns `true` the stored record becomes `{ ...existing, ...updates }`
(every present key of the update map overrides the stored field, every absent
key leaves it untouched) while every other id's row is untouched. -/
theorem C10_update_atomic (db : Storage) (i : String) (p : Patch) (wv : Option String) :
    ((MockDatabase.update db i p wv).2 = false → (MockDatabase.update db i p wv).1 = db) ∧
    ((MockDatabase.update db i p wv).2 = true →
      ∀ r, MockDatabase.get db i = some r →
        MockDatabase.get (MockDatabase.update db i p wv).1 i = some (applyPatch r p) ∧
        (∀ j, j ≠ i →
          MockDatabase.get (MockDatabase.update db i p wv).1 j = MockDatabase.get db j) ∧
        (∀ v, p.name = some v → (applyPatch r p).name = v) ∧
        (p.name = none → (applyPatch r p).name = r.name) ∧
        (∀ v, p.description = some v → (applyPatch r p).description = v) ∧
        (p.description = none → (applyPatch r p).description = r.description) ∧
        (∀ v, p.sections = some v → (applyPatch r p).sections = v) ∧
        (p.sections = none → (applyPatch r p).sections = r.sections) ∧
        (∀ v, p.field_definitions = some v → (applyPatch r p).field_definitions = v) ∧
        (p.field_definitions = none →
          (applyPatch r p).field_definitions = r.field_definitions) ∧
        (∀ v, p.version = some v → (applyPatch r p).version = v) ∧
        (p.version = none → (applyPatch r p).version = r.version) ∧
        (∀ v, p.updated_at = some v → (applyPatch r p).updated_at = v) ∧
        (p.updated_at = none → (applyPatch r p).updated_at = r.updated_at) ∧
        (∀ v, p.last_user_update = some v → (applyPatch r p).last_user_update = some v) ∧
        (p.last_user_update = none →
          (applyPatch r p).last_user_update = r.last_user_update) ∧
        (∀ v, p.processed_at = some v → (applyPatch r p).processed_at = some v) ∧
        (p.processed_at = none → (applyPatch r p).processed_at = r.processed_at) ∧
        (∀ v, p.update_count = some v → (applyPatch r p).update_count = some v) ∧
        (p.update_count = none → (applyPatch r p).update_count = r.update_count)) := by
  have happly : ∀ r : Record,
      (∀ v, p.name = some v → (applyPatch r p).name = v) ∧
      (p.name = none → (applyPatch r p).name = r.name) ∧
      (∀ v, p.description = some v → (applyPatch r p).description = v) ∧
      (p.description = none → (applyPatch r p).description = r.description) ∧
      (∀ v, p.sections = some v → (applyPatch r p).sections = v) ∧
      (p.sections = none → (applyPatch r p).sections = r.sections) ∧
      (∀ v, p.field_definitions = some v → (applyPatch r p).field_definitions = v) ∧
      (p.field_definitions = none →
        (applyPatch r p).field_definitions = r.field_definitions) ∧
      (∀ v, p.version = some v → (applyPatch r p).version = v) ∧
      (p.version = none → (applyPatch r p).version = r.version) ∧
      (∀ v, p.updated_at = some v → (applyPatch r p).updated_at = v) ∧
      (p.updated_at = none → (applyPatch r p).updated_at = r.updated_at) ∧
      (∀ v, p.last_user_update = some v → (applyPatch r p).last_user_update = some v) ∧
      (p.last_user_update = none →
        (applyPatch r p).last_user_update = r.last_user_update) ∧
      (∀ v, p.processed_at = some v → (applyPatch r p).processed_at = some v) ∧
      (p.processed_at = none → (applyPatch r p).processed_at = r.processed_at) ∧
      (∀ v, p.update_count = some v → (applyPatch r p).update_count = some v) ∧
      (p.update_count = none → (applyPatch r p).update_count = r.update_count) := by
    intro r
    refine ⟨?_, ?_, ?_, ?_, ?_, ?_, ?_, ?_, ?_, ?_, ?_, ?_, ?_, ?_, ?_, ?_, ?_, ?_⟩ <;>
      first
        | intro v hv
          simp [applyPatch, overrideOpt, hv]
        | intro hv
          simp [applyPatch, overrideOpt, hv]
  cases hdb : MockDatabase.get db i with
  | none =>
    refine ⟨fun _ => ?_, fun htrue => ?_⟩
    · simp [MockDatabase.update, hdb]
    · simp [MockDatabase.update, hdb] at htrue
  | some r0 =>
    by_cases hmis : MockDatabase.versionMismatch r0 wv = true
    · refine ⟨fun _ => ?_, fun htrue => ?_⟩
      · simp [MockDatabase.update, hdb, hmis]
      · simp [MockDatabase.update, hdb, hmis] at htrue
    · refine ⟨fun hfalse => ?_, fun _ r hr => ?_⟩
      · simp [MockDatabase.update, hdb, hmis] at hfalse
      · obtain rfl : r0 = r := Option.some_injective _ hr
        have hdb' : mapGet db i = some r0 := hdb
        have hmis' : MockDatabase.versionMismatch r0 wv = false := by
          simpa using hmis
        refine ⟨?_, fun j hj => ?_, happly r0⟩
        · simp [MockDatabase.update, hdb', hmis', MockDatabase.get, MockDatabase.set,
            mapGet_mapSet_self]
        · simp [MockDatabase.update, hdb', hmis', MockDatabase.get, MockDatabase.set,
            mapGet_mapSet_ne db _ hj]

theorem C10_witness :
    ((MockDatabase.update db100 "test-template-123" { name := some "n2" } (some "9")).2
        = false →
      (MockDatabase.update db100 "test-template-123" { name := some "n2" } (some "9")).1
        = db100) ∧
    ((MockDatabase.update db100 "test-template-123" { name := some "n2" } (some "9")).2
        = true →
      ∀ r, MockDatabase.get db100 "test-template-123" = some r →
        MockDatabase.get
            (MockDatabase.update db100 "test-template-123" { name := some "n2" }
              (some "9")).1 "test-template-123" = some (applyPatch r { name := some "n2" }) ∧
        (∀ j, j ≠ "test-template-123" →
          MockDatabase.get
              (MockDatabase.update db100 "test-template-123" { name := some "n2" }
                (some "9")).1 j = MockDatabase.get db100 j) ∧
        (∀ v, ({ name := some "n2" } : Patch).name = some v →
          (applyPatch r { name := some "n2" }).name = v) ∧
        (({ name := some "n2" } : Patch).name = none →
          (applyPatch r { name := some "n2" }).name = r.name) ∧
        (∀ v, ({ name := some "n2" } : Patch).description = some v →
          (applyPatch r { name := some "n2" }).description = v) ∧
        (({ name := some "n2" } : Patch).description = none →
          (applyPatch r { name := some "n2" }).description = r.description) ∧
        (∀ v, ({ name := some "n2" } : Patch).sections = some v →
          (applyPatch r { name := some "n2" }).sections = v) ∧
        (({ name := some "n2" } : Patch).sections = none →
          (applyPatch r { name := some "n2" }).sections = r.sections) ∧
        (∀ v, ({ name := some "n2" } : Patch).field_definitions = some v →
          (applyPatch r { name := some "n2" }).field_definitions = v) ∧
        (({ name := some "n2" } : Patch).field_definitions = none →
          (applyPatch r { name := some "n2" }).field_definitions = r.field_definitions) ∧
        (∀ v, ({ name := some "n2" } : Patch).version = some v →
          (applyPatch r { name := some "n2" }).version = v) ∧
        (({ name := some "n2" } : Patch).version = none →
          (applyPatch r { name := some "n2" }).version = r.version) ∧
        (∀ v, ({ name := some "n2" } : Patch).updated_at = some v →
          (applyPatch r { name := some "n2" }).updated_at = v) ∧
        (({ name := some "n2" } : Patch).updated_at = none →
          (applyPatch r { name := some "n2" }).updated_at = r.updated_at) ∧
        (∀ v, ({ name := some "n2" } : Patch).last_user_update = some v →
          (applyPatch r { name := some "n2" }).last_user_update = some v) ∧
        (({ name := some "n2" } : Patch).last_user_update = none →
          (applyPatch r { name := some "n2" }).last_user_update = r.last_user_update) ∧
        (∀ v, ({ name := some "n2" } : Patch).processed_at = some v →
          (applyPatch r { name := some "n2" }).processed_at = some v) ∧
        (({ name := some "n2" } : Patch).processed_at = none →
          (applyPatch r { name := some "n2" }).processed_at = r.processed_at) ∧
        (∀ v, ({ name := some "n2" } : Patch).update_count = some v →
          (applyPatch r { name := some "n2" }).update_count = some v) ∧
        (({ name := some "n2" } : Patch).update_count = none →
          (applyPatch r { name := some "n2" }).update_count = r.update_count)) :=
  C10_update_atomic db100 "test-template-123" { name := some "n2" } (some "9")

end TemplateSync
